import Mathlib

/-
  Verification of the looksy-backend HTTP relay.

  Shallow embedding of the request-validation, data-URI parsing, overlay
  resolution and retry logic of the repository.  JavaScript strings are
  modelled as `List Char`; fallible code returns `Except`/`Option`;
  JavaScript truthiness of strings (the empty string is falsy) is made
  explicit where the source relies on it.
-/

deriving instance DecidableEq for Except

namespace Looksy

abbrev Str := List Char

/-! ## Data-URI codec (`parseDataUri`, server source lines 86-115) -/

/-- `ALLOWED_MIME = new Set(['image/jpeg','image/jpg','image/png','image/webp','image/avif'])`. -/
def ALLOWED_MIME : List Str :=
  ["image/jpeg".toList, "image/jpg".toList, "image/png".toList,
   "image/webp".toList, "image/avif".toList]

/-- `MAX_DATAURI_BYTES = 8 * 1024 * 1024` (8 MiB per image). -/
def MAX_DATAURI_BYTES : Nat := 8 * 1024 * 1024

inductive ParseErr where
  /-- `'Invalid data URI format'` -/
  | invalidFormat
  /-- `` `Unsupported mime type: ${mimeType}` `` -/
  | unsupportedMime (mime : Str)
  /-- `'Image too large'` -/
  | imageTooLarge
deriving DecidableEq, Repr

structure ParsedImage where
  mimeType : Str
  base64 : Str
deriving DecidableEq, Repr

/-- The characters the JavaScript regex `.` does not match
(line feed, carriage return, U+2028, U+2029). -/
def isLineTerminator (c : Char) : Bool :=
  c = '\n' || c = '\r' || c.toNat = 8232 || c.toNat = 8233

/-- The literal `data:` head of the regex `^data:([^;]+);base64,(.*)$`. -/
def dataHead : Str := ['d', 'a', 't', 'a', ':']

/-- The literal `;base64,` marker of the regex. -/
def base64Marker : Str := [';', 'b', 'a', 's', 'e', '6', '4', ',']

/-- Matching `dataUri.match(/^data:([^;]+);base64,(.*)$/)`: the mime group is
the maximal nonempty run of non-`;` characters after `data:`, followed by the
literal `;base64,`; the payload group is the rest of the string and may not
contain line terminators (the unflagged `.` excludes them). -/
def dataUriRegexMatch (s : Str) : Option (Str × Str) :=
  if dataHead.isPrefixOf s then
    let rest := s.drop 5
    let mime := rest.takeWhile (fun c => c != ';')
    let after := rest.dropWhile (fun c => c != ';')
    if mime ≠ [] ∧ base64Marker.isPrefixOf after then
      let payload := after.drop 8
      if payload.any isLineTerminator then none else some (mime, payload)
    else none
  else none

/-- `parseDataUri` (list-of-characters level).  Mirrors the source line by
line: falsy/non-matching input fails with `invalidFormat`; the mime type is
lowercased and checked against the allow-list; the decoded size estimate
`Math.floor(base64Data.length * 3 / 4)` is checked against the 8 MiB ceiling;
on success the lowercased mime type and the untouched payload are returned. -/
def parseDataUriL (s : Str) : Except ParseErr ParsedImage :=
  if s = [] then .error .invalidFormat
  else
    match dataUriRegexMatch s with
    | none => .error .invalidFormat
    | some (mime, base64Data) =>
      let mimeType := mime.map Char.toLower
      if ALLOWED_MIME.contains mimeType then
        let approxBytes := base64Data.length * 3 / 4
        if MAX_DATAURI_BYTES < approxBytes then .error .imageTooLarge
        else .ok ⟨mimeType, base64Data⟩
      else .error (.unsupportedMime mimeType)

/-- `parseDataUri` at the `String` level. -/
def parseDataUri (s : String) : Except ParseErr ParsedImage :=
  parseDataUriL s.data

example : parseDataUri "data:image/png;base64,AAAA" =
    .ok ⟨"image/png".toList, "AAAA".toList⟩ := by decide

example : parseDataUri "data:image/PNG;base64,AAAA" =
    .ok ⟨"image/png".toList, "AAAA".toList⟩ := by decide

example : parseDataUri "data:text/plain;base64,AAAA" =
    .error (.unsupportedMime "text/plain".toList) := by decide

example : parseDataUri "nonsense" = .error .invalidFormat := by decide

example : parseDataUri "data:image/png;base64," = .ok ⟨"image/png".toList, []⟩ := by
  decide

/-! ## HTTP error codes and extension validation (`validateExtension`, lines 70-84) -/

inductive ErrCode where
  | INVALID_EXTENSION_ID
  | NO_OVERLAY_IMAGES
  | INVALID_USER_IMAGE
  | IMAGE_TOO_LARGE
  | INVALID_IMAGE_FORMAT
  | GENERATION_FAILED
deriving DecidableEq, Repr

structure HttpErr where
  status : Nat
  code : ErrCode
deriving DecidableEq, Repr

/-- JavaScript `a || b` on strings: the empty string is falsy and falls
through to `b`; `none` models `undefined`. -/
def jsOrStr (a b : Option Str) : Option Str :=
  match a with
  | some s => if s = [] then b else some s
  | none => b

/-- `process.env.CHROME_EXTENSION_IDS?.split(',') || []`: an unset variable
(`none`) yields `[]`; a set variable (even the empty string, whose
`split(',')` is `['']`) yields its comma-split fields. -/
def allowedIdsOf (env : Option Str) : List Str :=
  match env with
  | none => []
  | some s => s.splitOn ','

/-- `validateExtension` middleware: resolves the caller identity from
`req.body?.extensionId || req.headers['x-mm-extension-id']` and rejects with
403 `INVALID_EXTENSION_ID` unless `allowedIds.includes(extensionId)`; on
success the handler chain continues with the resolved identity. -/
def validateExtension (env bodyId headerId : Option Str) : Except HttpErr Str :=
  let allowedIds := allowedIdsOf env
  match jsOrStr bodyId headerId with
  | none => .error ⟨403, .INVALID_EXTENSION_ID⟩
  | some extensionId =>
    if allowedIds.contains extensionId then .ok extensionId
    else .error ⟨403, .INVALID_EXTENSION_ID⟩

example : validateExtension none (some "abcd".toList) none =
    .error ⟨403, .INVALID_EXTENSION_ID⟩ := by decide

example : validateExtension (some "id1,id2".toList) (some "id2".toList) none =
    .ok "id2".toList := by decide

example : validateExtension (some []) none (some []) = .ok [] := by decide

/-! ## Overlay resolution (try-on handler, lines 253-321) -/

/-- One `{inlineData: {mimeType, data}}` part sent to the synthesis client. -/
structure InlinePart where
  mimeType : Str
  data : Str
deriving DecidableEq, Repr

/-- One entry of the `overlayData.map` callback: `parseDataUri` inside
`try`, returning `null` on any parse failure (the failure is swallowed). -/
def decodeOverlayEntry (uri : Str) : Option InlinePart :=
  match parseDataUriL uri with
  | .ok p => some ⟨p.mimeType, p.base64⟩
  | .error _ => none

/-- `overlayData.slice(0, 3).map(...).filter(Boolean)`: decode the first
three entries, dropping the ones whose decode failed. -/
def overlayPartsFromData (overlayData : List Str) : List InlinePart :=
  ((overlayData.take 3).map decodeOverlayEntry).filterMap id

/-- Overlay resolution with its strict preference ordering: a non-empty
`overlayData` array takes the data path; otherwise a non-empty `overlayUrls`
array is fetched (the per-URL network fetch, status/mime validation and
timeout are abstracted as the oracle `fetchOverlay`, `null` meaning that the
entry was dropped); otherwise the list stays empty.  `none` models an
absent/non-array field. -/
def resolveOverlays (overlayData : Option (List Str)) (overlayUrls : Option (List Str))
    (fetchOverlay : Str → Option InlinePart) : List InlinePart :=
  match overlayData with
  | some (d :: ds) => overlayPartsFromData (d :: ds)
  | _ =>
    match overlayUrls with
    | some (u :: us) => (((u :: us).take 3).map fetchOverlay).filterMap id
    | _ => []

/-- `if (!overlayInlineParts.length) return 422 NO_OVERLAY_IMAGES`. -/
def overlayStage (parts : List InlinePart) : Except HttpErr (List InlinePart) :=
  if parts = [] then .error ⟨422, .NO_OVERLAY_IMAGES⟩ else .ok parts

/-! ## Synthesis client (`generateOverlayedImage`, src/services/gemini.js)

The external API response is modelled per attempt: either the fetch threw
(timeout/abort), or a non-2xx status with a body, or a 2xx response carrying
the parsed `candidates[0].content.parts` together with the
`promptFeedback.blockReason || ''` string (a 2xx body that is not valid JSON
behaves as an empty part list, matching `safeJson`).  The API-key precheck
and the prompt construction happen before the retry loop and are not part of
the loop model; the `usage` metadata attached to a success (model name and
token estimates from `estimateTokens`) is observability-only and omitted. -/

/-- An inline image blob, with both field-naming conventions the source
tolerates (`mime_type`/`mimeType`); `none` models an absent field. -/
structure InlineBlob where
  mime_type : Option Str
  mimeType : Option Str
  data : Option Str
deriving DecidableEq, Repr

/-- One entry of `candidates[0].content.parts`. -/
structure RespPart where
  inline_data : Option InlineBlob
  inlineData : Option InlineBlob
  text : Option Str
deriving DecidableEq, Repr

/-- JavaScript `a || b` on object-valued fields: only `undefined` falls
through (an object is always truthy). -/
def jsOrBlob (a b : Option InlineBlob) : Option InlineBlob :=
  match a with
  | some x => some x
  | none => b

/-- `text.indexOf(needle)` followed by `text.slice(idx)`: the suffix of
`text` starting at the first occurrence of `needle`, if any. -/
def sliceFromFirst (needle : Str) : Str → Option Str
  | [] => if needle.isPrefixOf [] then some [] else none
  | c :: t =>
    if needle.isPrefixOf (c :: t) then some (c :: t)
    else sliceFromFirst needle t

/-- `hay.includes(needle)`. -/
def strIncludes (needle hay : Str) : Bool :=
  (sliceFromFirst needle hay).isSome

/-- `data && (mimeType ? String(mimeType).includes('image/') : true)`:
the part's resolved blob must carry truthy `data`, and its resolved mime
type, when truthy, must contain the substring `image/`.  Returns the raw
base64 `data` of an accepted part. -/
def acceptedData (p : RespPart) : Option Str :=
  match jsOrBlob p.inline_data p.inlineData with
  | none => none
  | some blob =>
    match blob.data with
    | none => none
    | some d =>
      let m := jsOrStr blob.mime_type blob.mimeType
      let mimeOk := match m with
        | none => true
        | some s => if s = [] then true else strIncludes "image/".toList s
      if d ≠ [] ∧ mimeOk = true then some d else none

/-- First extraction loop: the first part with an accepted inline blob. -/
def findInline : List RespPart → Option Str
  | [] => none
  | p :: rest =>
    match acceptedData p with
    | some d => some d
    | none => findInline rest

/-- The literal `data:image/png;base64,` the source searches for and
prepends. -/
def pngHead : Str := "data:image/png;base64,".toList

/-- JavaScript `String.prototype.trim` whitespace (ASCII subset; the source
only ever trims around a `data:` literal). -/
def isJsSpace (c : Char) : Bool :=
  c = ' ' || c = '\t' || c = '\n' || c = '\r' || c.toNat = 11 || c.toNat = 12

def jsTrim (l : Str) : Str :=
  ((l.dropWhile isJsSpace).reverse.dropWhile isJsSpace).reverse

/-- The trailing-punctuation class of `candidate.replace(/[`'"\)\]]+$/, '')`:
backtick, apostrophe, double quote, closing parenthesis, closing bracket. -/
def isTrailJunk (c : Char) : Bool :=
  c.toNat = 96 || c.toNat = 39 || c.toNat = 34 || c = ')' || c = ']'

def stripTrailJunk (l : Str) : Str :=
  (l.reverse.dropWhile isTrailJunk).reverse

/-- Second extraction loop: the first part with truthy `text` containing the
`data:image/png;base64,` literal; the suffix from that literal is trimmed and
stripped of trailing punctuation. -/
def findTextImage : List RespPart → Option Str
  | [] => none
  | p :: rest =>
    match p.text with
    | none => findTextImage rest
    | some t =>
      if t = [] then findTextImage rest
      else
        match sliceFromFirst pngHead t with
        | none => findTextImage rest
        | some candidate => some (stripTrailJunk (jsTrim candidate))

/-- Image extraction from a structurally successful response: the inline
loop wins and always prepends the fixed `data:image/png;base64,` head to the
raw data; otherwise the text-embedded fallback is scanned. -/
def extractImage (parts : List RespPart) : Option Str :=
  match findInline parts with
  | some d => some (pngHead ++ d)
  | none => findTextImage parts

/-- `{ dataUrl }` of a successful synthesis (usage metadata omitted, see
module comment). -/
structure SynthResult where
  dataUrl : Str
deriving DecidableEq, Repr

inductive GenError where
  /-- `` `Gemini API error: ${response.status} ${responseText}` `` -/
  | apiError (status : Nat) (body : Str)
  /-- `'Gemini API returned no image data'`, with `blockReason || ''`. -/
  | noImage (block : Str)
  /-- the `fetch`/timeout exception of `fetchWithTimeout` -/
  | fetchFailure
  /-- `'Failed to get response from Gemini API'` (line 154 fallback) -/
  | genericFailure
deriving DecidableEq, Repr

/-- What the external service did on one attempt. -/
inductive AttemptOutcome where
  | timeout
  | httpError (status : Nat) (body : Str)
  | success (parts : List RespPart) (block : Str)
deriving DecidableEq, Repr

def maxRetries : Nat := 3
def baseDelay : Nat := 1000

/-- How the `try` block of one loop iteration ends: a `return`, a
`continue` (the explicit retryable-status fast path), or a thrown error. -/
inductive TryBodyEnd where
  | returned (r : SynthResult)
  | continued (e : GenError)
  | threw (e : GenError)
deriving DecidableEq, Repr

/-- The `try` body of attempt `attempt`: a fetch exception is thrown; a
non-OK response takes the `continue` path exactly when
`isRetryableError && attempt < maxRetries` and is thrown otherwise; a 2xx
response returns the extracted image or throws the no-image error. -/
def tryBody (o : AttemptOutcome) (attempt : Nat) : TryBodyEnd :=
  match o with
  | .timeout => .threw .fetchFailure
  | .httpError status body =>
    let isRetryableError := status = 500 || status = 502 || status = 503
    if isRetryableError ∧ attempt < maxRetries then .continued (.apiError status body)
    else .threw (.apiError status body)
  | .success parts block =>
    match extractImage parts with
    | some url => .returned ⟨url⟩
    | none => .threw (.noImage block)

/-- What one loop iteration does to the loop: the `catch` block rethrows
when `attempt === maxRetries` and otherwise logs and lets the loop
continue. -/
inductive LoopStep where
  | done (r : SynthResult)
  | fatal (e : GenError)
  | retry (e : GenError)
deriving DecidableEq, Repr

def loopStep (o : AttemptOutcome) (attempt : Nat) : LoopStep :=
  match tryBody o attempt with
  | .returned r => .done r
  | .continued e => .retry e
  | .threw e => if attempt = maxRetries then .fatal e else .retry e

/-- Result of a whole `generateOverlayedImage` call: how many attempts were
made and the final outcome. -/
structure RunResult where
  attemptsMade : Nat
  result : Except GenError SynthResult
deriving DecidableEq, Repr

/-- The `for (let attempt = 1; attempt <= maxRetries; attempt++)` loop,
with `lastError` threaded through and the post-loop
`throw lastError || new Error(...)` as the out-of-fuel case. -/
def runFrom (o : Nat → AttemptOutcome) (lastError : Option GenError)
    (attempt : Nat) : Nat → RunResult
  | 0 => ⟨attempt - 1, .error (lastError.getD .genericFailure)⟩
  | fuel + 1 =>
    match loopStep (o attempt) attempt with
    | .done r => ⟨attempt, .ok r⟩
    | .fatal e => ⟨attempt, .error e⟩
    | .retry e => runFrom o (some e) (attempt + 1) fuel

/-- One `generateOverlayedImage` invocation against the per-attempt oracle
`o` (`o n` is what the service does on attempt `n`). -/
def generateOverlayedImage (o : Nat → AttemptOutcome) : RunResult :=
  runFrom o none 1 maxRetries

/-- `delay = baseDelay * Math.pow(2, attempt - 1)`, inserted before every
attempt after the first (`if (attempt > 1)`). -/
def delayBeforeAttempt (attempt : Nat) : Nat :=
  if 1 < attempt then baseDelay * 2 ^ (attempt - 1) else 0

/-- Total backoff delay inserted over the first `n` attempts. -/
def totalBackoffDelay (n : Nat) : Nat :=
  ((List.range n).map (fun i => delayBeforeAttempt (i + 1))).sum

/-- A sample 2xx response part carrying an inline image (camelCase naming). -/
def samplePart : RespPart :=
  ⟨none, some ⟨none, some "image/png".toList, some "QUJD".toList⟩, none⟩

example : extractImage [samplePart] = some (pngHead ++ "QUJD".toList) := by decide

example : generateOverlayedImage
    (fun n => match n with
      | 1 => .httpError 400 "Bad Request".toList
      | _ => .success [samplePart] []) =
    ⟨2, .ok ⟨pngHead ++ "QUJD".toList⟩⟩ := by decide

example : generateOverlayedImage
    (fun n => match n with
      | 1 => .success [] []
      | _ => .success [samplePart] []) =
    ⟨2, .ok ⟨pngHead ++ "QUJD".toList⟩⟩ := by decide

example : generateOverlayedImage (fun _ => .httpError 503 []) =
    ⟨3, .error (.apiError 503 [])⟩ := by decide

example : totalBackoffDelay 3 = 6000 := by decide

/-! ## Helper lemmas -/

theorem isPrefixOf_append_self (a b : Str) : a.isPrefixOf (a ++ b) = true := by
  induction a with
  | nil => simp [List.isPrefixOf]
  | cons x xs ih => simp [List.isPrefixOf, ih]

theorem takeWhile_append_stop (p : Char → Bool) (a : Str) (c : Char) (b : Str)
    (ha : ∀ x ∈ a, p x = true) (hc : p c = false) :
    (a ++ c :: b).takeWhile p = a := by
  induction a with
  | nil => simp [List.takeWhile_cons, hc]
  | cons x xs ih =>
    have hx : p x = true := ha x (List.mem_cons_self x xs)
    simp only [List.cons_append, List.takeWhile_cons, hx, if_true]
    exact congrArg (x :: ·) (ih fun y hy => ha y (List.mem_cons_of_mem x hy))

theorem dropWhile_append_stop (p : Char → Bool) (a : Str) (c : Char) (b : Str)
    (ha : ∀ x ∈ a, p x = true) (hc : p c = false) :
    (a ++ c :: b).dropWhile p = c :: b := by
  induction a with
  | nil => simp [List.dropWhile_cons, hc]
  | cons x xs ih =>
    have hx : p x = true := ha x (List.mem_cons_self x xs)
    simp only [List.cons_append, List.dropWhile_cons, hx, if_true]
    exact ih fun y hy => ha y (List.mem_cons_of_mem x hy)

/-- A well-shaped `data:<mime>;base64,<payload>` string matches the regex
with exactly its mime and payload groups. -/
theorem dataUriRegexMatch_append (mime payload : Str) (hm : mime ≠ [])
    (hsemi : ∀ c ∈ mime, (c != ';') = true)
    (hterm : payload.any isLineTerminator = false) :
    dataUriRegexMatch (dataHead ++ mime ++ base64Marker ++ payload) =
      some (mime, payload) := by
  have h1 : dataHead.isPrefixOf (dataHead ++ (mime ++ (base64Marker ++ payload))) = true :=
    isPrefixOf_append_self _ _
  have hlen5 : dataHead.length = 5 := rfl
  have h2 : (dataHead ++ (mime ++ (base64Marker ++ payload))).drop 5 =
      mime ++ (base64Marker ++ payload) := by
    rw [← hlen5]; exact List.drop_left _ _
  have h3 : (mime ++ (base64Marker ++ payload)).takeWhile (fun c => c != ';') = mime :=
    takeWhile_append_stop _ mime ';' _ hsemi (by decide)
  have h4 : (mime ++ (base64Marker ++ payload)).dropWhile (fun c => c != ';') =
      base64Marker ++ payload :=
    dropWhile_append_stop _ mime ';' _ hsemi (by decide)
  have h6 : base64Marker.isPrefixOf (base64Marker ++ payload) = true :=
    isPrefixOf_append_self _ _
  have hlen8 : base64Marker.length = 8 := rfl
  have h5 : (base64Marker ++ payload).drop 8 = payload := by
    rw [← hlen8]; exact List.drop_left _ _
  simp only [dataUriRegexMatch, List.append_assoc, h1, if_true, h2, h3, h4, h5, h6,
    hterm, hm, ne_eq, not_false_iff, true_and, and_true, if_false, Bool.false_eq_true,
    reduceIte]

/-- `parseDataUriL` on a well-shaped `data:<mime>;base64,<payload>` string:
the lowercased mime type is checked against the allow-list first; only then
is the size estimate compared against the ceiling. -/
theorem parseDataUriL_shape (mime payload : Str) (hm : mime ≠ [])
    (hsemi : ∀ c ∈ mime, (c != ';') = true)
    (hterm : payload.any isLineTerminator = false) :
    parseDataUriL (dataHead ++ mime ++ base64Marker ++ payload) =
      (if ALLOWED_MIME.contains (mime.map Char.toLower) then
        if MAX_DATAURI_BYTES < payload.length * 3 / 4 then .error .imageTooLarge
        else .ok ⟨mime.map Char.toLower, payload⟩
      else .error (.unsupportedMime (mime.map Char.toLower))) := by
  have hne : dataHead ++ mime ++ base64Marker ++ payload ≠ [] := by
    simp [dataHead]
  simp only [parseDataUriL, hne, if_false, dataUriRegexMatch_append mime payload hm hsemi hterm,
    reduceIte]

theorem any_replicate_eq_false (n : Nat) (c : Char) (p : Char → Bool) (h : p c = false) :
    (List.replicate n c).any p = false := by
  induction n with
  | zero => rfl
  | succ k ih => simp [List.replicate_succ, h, ih]

theorem filterMap_id_map (l : List Str) :
    ((l.map decodeOverlayEntry).filterMap id) = l.filterMap decodeOverlayEntry := by
  induction l with
  | nil => rfl
  | cons x xs ih => cases hx : decodeOverlayEntry x <;> simp [hx, ih]

/-! ## Claims about the data-URI codec -/

/-- Claim C3 counterexample: a data URI whose estimated decoded size exceeds
8 MiB but whose mime type is outside the allow-list does NOT fail with the
payload-too-large error; the unsupported-mime error fires first. -/
theorem c3_counterexample :
    MAX_DATAURI_BYTES < (List.replicate 11184812 'A').length * 3 / 4 ∧
    parseDataUriL (dataHead ++ "text/plain".toList ++ base64Marker ++
        List.replicate 11184812 'A') =
      .error (.unsupportedMime "text/plain".toList) := by
  constructor
  · rw [List.length_replicate]; decide
  · rw [parseDataUriL_shape _ _ (by decide) (by decide)
      (any_replicate_eq_false _ _ _ (by decide))]
    rw [if_neg (by decide)]
    decide

/-- Claim C3 (amended): for a well-shaped `data:<mime>;base64,<payload>`
input whose estimated decoded size exceeds 8 MiB, `parseDataUri` fails with
`'Image too large'` when the lowercased mime type is allow-listed, and with
the unsupported-mime error otherwise (the mime check precedes the size
check). -/
theorem c3_size_check_after_mime_check (mime payload : Str) (hm : mime ≠ [])
    (hsemi : ∀ c ∈ mime, (c != ';') = true)
    (hterm : payload.any isLineTerminator = false)
    (hsize : MAX_DATAURI_BYTES < payload.length * 3 / 4) :
    parseDataUriL (dataHead ++ mime ++ base64Marker ++ payload) =
      (if ALLOWED_MIME.contains (mime.map Char.toLower) then .error .imageTooLarge
       else .error (.unsupportedMime (mime.map Char.toLower))) := by
  rw [parseDataUriL_shape mime payload hm hsemi hterm]
  split <;> simp [hsize]

/-- Witness for C3 (amended): an allow-listed mime with an oversized payload
fails with `'Image too large'`. -/
theorem c3_size_check_after_mime_check_witness :
    parseDataUriL (dataHead ++ "image/png".toList ++ base64Marker ++
        List.replicate 11184812 'A') =
      .error .imageTooLarge := by
  rw [c3_size_check_after_mime_check "image/png".toList (List.replicate 11184812 'A')
    (by decide) (by decide) (any_replicate_eq_false _ _ _ (by decide))
    (by rw [List.length_replicate]; decide)]
  decide

/-- Claim C5 counterexample: the mime type is lowercased before being
returned, so it is not always "the same mime type as written in the URI". -/
theorem c5_counterexample :
    parseDataUri "data:image/PNG;base64,AAAA" =
      .ok ⟨"image/png".toList, "AAAA".toList⟩ ∧
    "image/png".toList ≠ "image/PNG".toList := by
  constructor
  · decide
  · decide

/-- Claim C5 (amended): for every well-shaped `data:<mime>;base64,<payload>`
input whose lowercased mime type is allow-listed and whose estimated payload
size is at most 8 MiB, `parseDataUri` succeeds and returns the lowercased
mime type together with the base64 payload unmodified. -/
theorem c5_roundtrip_lowercased (mime payload : Str) (hm : mime ≠ [])
    (hsemi : ∀ c ∈ mime, (c != ';') = true)
    (hterm : payload.any isLineTerminator = false)
    (hallow : ALLOWED_MIME.contains (mime.map Char.toLower) = true)
    (hsize : payload.length * 3 / 4 ≤ MAX_DATAURI_BYTES) :
    parseDataUriL (dataHead ++ mime ++ base64Marker ++ payload) =
      .ok ⟨mime.map Char.toLower, payload⟩ := by
  rw [parseDataUriL_shape mime payload hm hsemi hterm]
  have hmem : mime.map Char.toLower ∈ ALLOWED_MIME := by simpa using hallow
  simp [hmem, Nat.not_lt.mpr hsize]

/-- Witness for C5 (amended) at a concrete mixed-case input. -/
theorem c5_roundtrip_lowercased_witness :
    parseDataUriL (dataHead ++ "image/PNG".toList ++ base64Marker ++ "AAAA".toList) =
      .ok ⟨"image/png".toList, "AAAA".toList⟩ := by
  rw [c5_roundtrip_lowercased "image/PNG".toList "AAAA".toList (by decide) (by decide)
    (by decide) (by decide) (by decide)]
  decide

/-- Claim C8: a data URI with an empty base64 payload is accepted, returning
the mime type and the empty payload. -/
theorem c8_empty_payload_accepted :
    parseDataUri "data:image/png;base64," = .ok ⟨"image/png".toList, []⟩ := by
  decide

/-! ## Claims about extension validation -/

/-- Claim C10 counterexample: with `CHROME_EXTENSION_IDS` set to the empty
string, a request carrying an empty `x-mm-extension-id` header (and no body
`extensionId`) is ADMITTED, because `''.split(',')` is `['']`. -/
theorem c10_counterexample :
    validateExtension (some []) none (some []) = .ok [] := by decide

/-- Claim C10 (amended): an unset `CHROME_EXTENSION_IDS` rejects every
request with 403 `INVALID_EXTENSION_ID`; an empty-string
`CHROME_EXTENSION_IDS` yields the one-element allow-list `['']`, so the only
identity it can admit is the empty string. -/
theorem c10_fail_closed_amended :
    (∀ bodyId headerId, validateExtension none bodyId headerId =
        .error ⟨403, .INVALID_EXTENSION_ID⟩) ∧
    (∀ bodyId headerId ident, validateExtension (some []) bodyId headerId = .ok ident →
        ident = []) := by
  constructor
  · intro b h
    unfold validateExtension allowedIdsOf
    cases jsOrStr b h with
    | none => rfl
    | some s => simp [List.contains]
  · intro b h ident hok
    unfold validateExtension allowedIdsOf at hok
    cases hj : jsOrStr b h with
    | none => rw [hj] at hok; exact absurd hok (by simp)
    | some s =>
      rw [hj] at hok
      by_cases hs : s = ([] : Str)
      · subst hs
        simp at hok
        exact hok
      · simp [List.contains, hs] at hok

/-- Witness for C10 (amended). -/
theorem c10_fail_closed_amended_witness :
    validateExtension none (some "abcd".toList) none =
      .error ⟨403, .INVALID_EXTENSION_ID⟩ ∧
    ([] : Str) = [] :=
  ⟨c10_fail_closed_amended.1 (some "abcd".toList) none,
   c10_fail_closed_amended.2 none (some []) [] (by decide)⟩

/-! ## Claims about overlay resolution -/

/-- Claim C6: with a non-empty `overlayData` array, resolution equals the
data-decoding path whatever the URL list and whatever the fetcher would
return (so `overlayUrls` is never consulted and no fetch occurs), and when
every `overlayData` entry fails to decode the handler fails with 422
`NO_OVERLAY_IMAGES` instead of falling back to the URLs. -/
theorem c6_overlay_data_strictly_preferred
    (d : Str) (ds : List Str) (urls : Option (List Str))
    (fetchOverlay : Str → Option InlinePart) :
    resolveOverlays (some (d :: ds)) urls fetchOverlay = overlayPartsFromData (d :: ds) ∧
    (overlayPartsFromData (d :: ds) = [] →
      overlayStage (resolveOverlays (some (d :: ds)) urls fetchOverlay) =
        .error ⟨422, .NO_OVERLAY_IMAGES⟩) := by
  refine ⟨rfl, fun hempty => ?_⟩
  simp [overlayStage, resolveOverlays, hempty]

/-- Witness for C6: one undecodable `overlayData` entry, a non-empty URL
list and a fetcher that would succeed; the request still fails with
`NO_OVERLAY_IMAGES`. -/
theorem c6_overlay_data_strictly_preferred_witness :
    overlayStage (resolveOverlays (some ["oops".toList]) (some ["http://x".toList])
      (fun _ => some ⟨"image/png".toList, "QUJD".toList⟩)) =
      .error ⟨422, .NO_OVERLAY_IMAGES⟩ :=
  (c6_overlay_data_strictly_preferred "oops".toList [] (some ["http://x".toList])
    (fun _ => some ⟨"image/png".toList, "QUJD".toList⟩)).2 (by decide)

/-- Claim C7: among the first three `overlayData` entries, a single decode
failure drops exactly that entry; the other entries are decoded in their
original order and the batch does not fail. -/
theorem c7_decode_failure_drops_single_entry
    (pre post : List Str) (bad : Str)
    (hbad : decodeOverlayEntry bad = none)
    (hlen : (pre ++ bad :: post).length ≤ 3) :
    overlayPartsFromData (pre ++ bad :: post) =
      pre.filterMap decodeOverlayEntry ++ post.filterMap decodeOverlayEntry := by
  unfold overlayPartsFromData
  rw [List.take_of_length_le hlen, filterMap_id_map]
  simp [List.filterMap_append, List.filterMap_cons, hbad]

/-- Witness for C7: a bad entry between two copies of a good one is dropped;
the duplicate good entries survive in order. -/
theorem c7_decode_failure_drops_single_entry_witness :
    overlayPartsFromData ["data:image/png;base64,QUJD".toList, "oops".toList,
        "data:image/png;base64,QUJD".toList] =
      [⟨"image/png".toList, "QUJD".toList⟩, ⟨"image/png".toList, "QUJD".toList⟩] := by
  rw [show ["data:image/png;base64,QUJD".toList, "oops".toList,
        "data:image/png;base64,QUJD".toList] =
      ["data:image/png;base64,QUJD".toList] ++ "oops".toList ::
        ["data:image/png;base64,QUJD".toList] from rfl]
  rw [c7_decode_failure_drops_single_entry _ _ _ (by decide) (by decide)]
  decide

/-! ## Claims about the synthesis client -/

/-- The three-attempt loop, unrolled. -/
theorem generateOverlayedImage_eq (o : Nat → AttemptOutcome) :
    generateOverlayedImage o =
      match loopStep (o 1) 1 with
      | .done r => ⟨1, .ok r⟩
      | .fatal e => ⟨1, .error e⟩
      | .retry _ =>
        match loopStep (o 2) 2 with
        | .done r => ⟨2, .ok r⟩
        | .fatal e => ⟨2, .error e⟩
        | .retry _ =>
          match loopStep (o 3) 3 with
          | .done r => ⟨3, .ok r⟩
          | .fatal e => ⟨3, .error e⟩
          | .retry e => ⟨3, .error e⟩ := by
  unfold generateOverlayedImage maxRetries runFrom
  cases loopStep (o 1) 1 with
  | done r => rfl
  | fatal e => rfl
  | retry e =>
    unfold runFrom
    cases loopStep (o 2) 2 with
    | done r => rfl
    | fatal e => rfl
    | retry e =>
      unfold runFrom
      cases loopStep (o 3) 3 with
      | done r => rfl
      | fatal e => rfl
      | retry e => rfl

/-- Every non-final attempt that sees a non-OK status leads to a retry,
whatever the status: the retryable fast path takes `continue`, and any other
status is thrown but swallowed by the loop's catch-all. -/
theorem loopStep_httpError_early (status : Nat) (body : Str) (attempt : Nat)
    (h : attempt < maxRetries) :
    loopStep (.httpError status body) attempt = .retry (.apiError status body) := by
  unfold loopStep tryBody
  by_cases hb : (decide (status = 500) || decide (status = 502) || decide (status = 503)) = true
  · simp [hb, h]
  · simp [hb, Nat.ne_of_lt h]

/-- On the final attempt a non-OK status is fatal. -/
theorem loopStep_httpError_last (status : Nat) (body : Str) :
    loopStep (.httpError status body) 3 = .fatal (.apiError status body) := by
  unfold loopStep tryBody maxRetries
  by_cases hb : (decide (status = 500) || decide (status = 502) || decide (status = 503)) = true
  · simp [hb]
  · simp [hb]

/-- Claim C1 evaluation: a 400 response on the first attempt is followed by
a second attempt (which can succeed), and a persistent non-retryable status
still consumes all three attempts before the call fails. -/
theorem c1_client_error_is_retried :
    generateOverlayedImage (fun n => match n with
      | 1 => .httpError 400 "Bad Request".toList
      | _ => .success [samplePart] []) = ⟨2, .ok ⟨pngHead ++ "QUJD".toList⟩⟩ ∧
    (∀ status body, generateOverlayedImage (fun _ => .httpError status body) =
      ⟨3, .error (.apiError status body)⟩) := by
  refine ⟨by decide, fun status body => ?_⟩
  rw [generateOverlayedImage_eq]
  rw [loopStep_httpError_early status body 1 (by decide),
    loopStep_httpError_early status body 2 (by decide),
    loopStep_httpError_last status body]

/-- Claim C2 evaluation: a 2xx response with no extractable image on the
first attempt is followed by a second attempt (which can succeed), and when
every attempt completes empty the call fails with the no-image error only
after the third attempt. -/
theorem c2_empty_response_is_retried :
    generateOverlayedImage (fun n => match n with
      | 1 => .success [] []
      | _ => .success [samplePart] []) = ⟨2, .ok ⟨pngHead ++ "QUJD".toList⟩⟩ ∧
    (∀ block, generateOverlayedImage (fun _ => .success [] block) =
      ⟨3, .error (.noImage block)⟩) := by
  exact ⟨by decide, fun block => rfl⟩

/-- Claim C4 counterexample: in the 503/503/200 scenario the call succeeds
on the third attempt, but the total inserted backoff is 6000 ms, not
1000 ms + 2000 ms. -/
theorem c4_counterexample :
    generateOverlayedImage (fun n => match n with
      | 1 => .httpError 503 []
      | 2 => .httpError 503 []
      | _ => .success [samplePart] []) = ⟨3, .ok ⟨pngHead ++ "QUJD".toList⟩⟩ ∧
    totalBackoffDelay 3 = 6000 ∧ ¬ totalBackoffDelay 3 = 1000 + 2000 := by
  refine ⟨by decide, by decide, by decide⟩

/-- Claim C4 (amended): with 503 on the first two attempts and an
extractable image on the third, the call succeeds on the third attempt, with
backoff 2000 ms before attempt 2 and 4000 ms before attempt 3 (6000 ms in
total), per `delay = baseDelay * 2^(attempt-1)`. -/
theorem c4_backoff_delays (b1 b2 : Str) (parts : List RespPart) (block url : Str)
    (h : extractImage parts = some url) :
    generateOverlayedImage (fun n => match n with
      | 1 => .httpError 503 b1
      | 2 => .httpError 503 b2
      | _ => .success parts block) = ⟨3, .ok ⟨url⟩⟩ ∧
    delayBeforeAttempt 2 = 2000 ∧ delayBeforeAttempt 3 = 4000 ∧
    totalBackoffDelay 3 = 6000 := by
  refine ⟨?_, by decide, by decide, by decide⟩
  rw [generateOverlayedImage_eq]
  have s1 : loopStep ((fun n => match n with
      | 1 => AttemptOutcome.httpError 503 b1
      | 2 => AttemptOutcome.httpError 503 b2
      | _ => AttemptOutcome.success parts block) 1) 1 =
      .retry (.apiError 503 b1) := rfl
  have s2 : loopStep ((fun n => match n with
      | 1 => AttemptOutcome.httpError 503 b1
      | 2 => AttemptOutcome.httpError 503 b2
      | _ => AttemptOutcome.success parts block) 2) 2 =
      .retry (.apiError 503 b2) := rfl
  have s3 : loopStep ((fun n => match n with
      | 1 => AttemptOutcome.httpError 503 b1
      | 2 => AttemptOutcome.httpError 503 b2
      | _ => AttemptOutcome.success parts block) 3) 3 = .done ⟨url⟩ := by
    simp [loopStep, tryBody, h]
  rw [s1, s2, s3]

/-- Witness for C4 (amended). -/
theorem c4_backoff_delays_witness :
    generateOverlayedImage (fun n => match n with
      | 1 => .httpError 503 []
      | 2 => .httpError 503 []
      | _ => .success [samplePart] []) = ⟨3, .ok ⟨pngHead ++ "QUJD".toList⟩⟩ ∧
    delayBeforeAttempt 2 = 2000 ∧ delayBeforeAttempt 3 = 4000 ∧
    totalBackoffDelay 3 = 6000 :=
  c4_backoff_delays [] [] [samplePart] [] (pngHead ++ "QUJD".toList) (by decide)

/-- Claim C9: a success through the inline-part loop always carries the
fixed `data:image/png;base64,` head whatever mime type the response
declared, and a part is accepted whenever it carries truthy data and its
resolved mime type contains `image/` or is absent. -/
theorem c9_inline_image_acceptance_and_png_head :
    (∀ (parts : List RespPart) (d : Str), findInline parts = some d →
      extractImage parts = some (pngHead ++ d)) ∧
    (∀ (p : RespPart) (blob : InlineBlob) (d : Str),
      jsOrBlob p.inline_data p.inlineData = some blob →
      blob.data = some d → d ≠ [] →
      (jsOrStr blob.mime_type blob.mimeType = none ∨
        ∃ m, jsOrStr blob.mime_type blob.mimeType = some m ∧
          strIncludes "image/".toList m = true) →
      acceptedData p = some d) := by
  constructor
  · intro parts d h
    unfold extractImage
    rw [h]
  · intro p blob d hblob hdata hne hmime
    rcases hmime with hnone | ⟨m, hm, hinc⟩
    · simp [acceptedData, hblob, hdata, hnone, hne]
    · by_cases hm0 : m = []
      · subst hm0
        simp [acceptedData, hblob, hdata, hm, hne]
      · simp [acceptedData, hblob, hdata, hm, hm0, hne]
        exact hinc

/-- Witness for C9 at a concrete response part. -/
theorem c9_inline_image_acceptance_and_png_head_witness :
    extractImage [samplePart] = some (pngHead ++ "QUJD".toList) ∧
    acceptedData samplePart = some "QUJD".toList :=
  ⟨c9_inline_image_acceptance_and_png_head.1 [samplePart] "QUJD".toList (by decide),
   c9_inline_image_acceptance_and_png_head.2 samplePart
     ⟨none, some "image/png".toList, some "QUJD".toList⟩ "QUJD".toList
     (by decide) (by decide) (by decide)
     (Or.inr ⟨"image/png".toList, by decide, by decide⟩)⟩

end Looksy
